import Mathlib

/-!
Shallow embedding of the Form-And-List screen in `src/App.tsx`.

The screen owns seven pieces of state (`title`, `description`, `latitude`,
`longitude`, `photo`, `places`, `loading`) and four event handlers
(`fetchPlaces`, `getLocation`, `takePhoto`, `handleSave`).  Each handler is
embedded as a pure function from the current state and the outcome of its
external collaborator (HTTP fetch, geolocation provider, camera provider)
to the new state together with the list of alerts shown.  Coordinates are
embedded as integers: no claim involves coordinate arithmetic, only
presence (`null` vs a number) and concrete values such as `0`.
-/

/-- A server-side record, `type Place` in `src/App.tsx`. -/
structure Place where
  _id : String
  title : String
  description : String
  latitude : Int
  longitude : Int
  photo : Option String
  createdAt : Option String
deriving DecidableEq, Repr

/-- The screen state: the five Draft fields (`title`, `description`,
`latitude`, `longitude`, `photo`), the list state `places`, and the busy
flag `loading`, exactly the seven `useState` hooks of `App`. -/
structure AppState where
  title : String
  description : String
  latitude : Option Int
  longitude : Option Int
  photo : Option String
  places : List Place
  loading : Bool
deriving DecidableEq, Repr

/-- An alert, as shown by `Alert.alert(title, message)`. -/
abbrev AlertMsg := String × String

/-- The alert of `fetchPlaces`'s catch block. -/
def fetchAlert : AlertMsg := ("Erro", "Não foi possível carregar os registros")

/-- Outcome of the `fetch` + `res.json()` pair inside `fetchPlaces`:
either the chain throws (network error, or a body that is not valid JSON),
or it yields a response with an HTTP status (`ok`) and a parsed body. -/
inductive FetchOutcome where
  | netError
  | response (ok : Bool) (body : Option (List Place))
deriving DecidableEq, Repr

/-- `fetchPlaces` of `src/App.tsx`: takes the current list state and the
collaborator outcome, returns the new list state and the alerts shown.
Note the source checks nothing about `res.ok`: whatever `res.json()`
yields is stored via `setPlaces(data)`; only a thrown error reaches the
catch block and its alert. -/
def fetchPlaces (places : List Place) (out : FetchOutcome) :
    List Place × List AlertMsg :=
  match out with
  | .netError => (places, [fetchAlert])
  | .response _ok body =>
      match body with
      | none => (places, [fetchAlert])
      | some data => (data, [])

/-- The alert of `getLocation`'s permission-denied branch. -/
def locationPermAlert : AlertMsg :=
  ("Permissão negada", "É necessário permitir o acesso à localização.")

/-- `getLocation` of `src/App.tsx`: `status` is the string returned by
`Location.requestForegroundPermissionsAsync()`, `coords` the position fix
that `Location.getCurrentPositionAsync` would deliver (unused when the
permission is not granted, since the source returns before requesting a
fix). -/
def getLocation (s : AppState) (status : String) (coords : Int × Int) :
    AppState × List AlertMsg :=
  if status ≠ "granted" then
    (s, [locationPermAlert])
  else
    ({ s with latitude := some coords.1, longitude := some coords.2 }, [])

/-- The alert of `takePhoto`'s permission-denied branch. -/
def cameraPermAlert : AlertMsg :=
  ("Permissão negada", "É necessário permitir o uso da câmera.")

/-- One asset of an image-picker result; both fields are string-or-absent,
mirroring `asset.base64` and `asset.uri`. -/
structure Asset where
  base64 : Option String
  uri : Option String
deriving DecidableEq, Repr

/-- The value returned by `ImagePicker.launchCameraAsync`. -/
structure CameraResult where
  canceled : Bool
  assets : Option (List Asset)
deriving DecidableEq, Repr

/-- The `else if (asset.uri) setPhoto(asset.uri)` fallback of `takePhoto`;
like every JavaScript truthiness test on a string, an empty string counts
as absent. -/
def photoFromUri (s : AppState) (uri : Option String) :
    AppState × List AlertMsg :=
  match uri with
  | some u => if u != "" then ({ s with photo := some u }, []) else (s, [])
  | none => (s, [])

/-- `takePhoto` of `src/App.tsx`: `status` is the string returned by
`ImagePicker.requestCameraPermissionsAsync()`, `result` the camera result
(unused when the permission is not granted).  The source tests
`!result.canceled && result.assets && result.assets.length > 0`, then
prefers `asset.base64` (a truthiness test, so an empty string falls
through) over `asset.uri`. -/
def takePhoto (s : AppState) (status : String) (result : CameraResult) :
    AppState × List AlertMsg :=
  if status ≠ "granted" then
    (s, [cameraPermAlert])
  else
    match result.canceled, result.assets with
    | false, some (asset :: _) =>
        match asset.base64 with
        | some b =>
            if b != "" then
              ({ s with photo := some ("data:image/jpeg;base64," ++ b) }, [])
            else photoFromUri s asset.uri
        | none => photoFromUri s asset.uri
    | _, _ => (s, [])

/-- The validation test of `handleSave`:
`!title || !description || latitude == null || longitude == null`.
On a string, `!x` is true exactly when the string is empty; on the
number-or-null coordinates, `== null` tests only for null. -/
def missingRequired (s : AppState) : Bool :=
  s.title == "" || s.description == "" || s.latitude.isNone || s.longitude.isNone

/-- The alert of `handleSave`'s validation branch. -/
def validationAlert : AlertMsg :=
  ("Campos obrigatórios", "Preencha título, descrição e localização.")

/-- The alert of `handleSave`'s `!res.ok` branch. -/
def saveRejectedAlert : AlertMsg := ("Erro", "Falha ao salvar o registro.")

/-- The alert of `handleSave`'s catch block. -/
def saveConnectionAlert : AlertMsg := ("Erro", "Falha na conexão com o backend.")

/-- The alert of `handleSave`'s success branch. -/
def saveSuccessAlert : AlertMsg := ("Sucesso", "Registro salvo com sucesso!")

/-- Outcome of the POST issued by `handleSave`:
`netError` — the `fetch` itself throws (caught by the catch block);
`failure errorBody` — a response with `res.ok` false, where `errorBody` is
the parse of the error body (`none` when `res.json()` rejects, in which
case the source's `.catch(() => (\x7b\x7d))` substitutes an empty object);
`successBadBody` — `res.ok` true but `res.json()` throws (also caught by
the catch block); `success created` — `res.ok` true and the body parses
as the created record. -/
inductive PostOutcome where
  | netError
  | failure (errorBody : Option String)
  | successBadBody
  | success (created : Place)
deriving DecidableEq, Repr

/-- The result of one `handleSave` run: the new screen state, the alerts
shown, whether a network request was issued, and the value passed to
`console.error('Erro ao salvar', errorData)` in the `!res.ok` branch
(rendered as a string, with `"\x7b\x7d"` for the empty object). -/
structure SaveResult where
  state : AppState
  alerts : List AlertMsg
  networkCalled : Bool
  loggedErrorData : Option String
deriving DecidableEq, Repr

/-- `handleSave` of `src/App.tsx`.  When validation fails the function
returns before the try block: no state change at all (in particular
`loading` is untouched).  Otherwise `setLoading(true)` runs, the POST is
issued, and the `finally` clause guarantees `loading` is false at the end
of every branch. -/
def handleSave (s : AppState) (post : PostOutcome) : SaveResult :=
  if missingRequired s then
    { state := s, alerts := [validationAlert],
      networkCalled := false, loggedErrorData := none }
  else
    match post with
    | .netError =>
        { state := { s with loading := false },
          alerts := [saveConnectionAlert],
          networkCalled := true, loggedErrorData := none }
    | .failure errorBody =>
        { state := { s with loading := false },
          alerts := [saveRejectedAlert],
          networkCalled := true,
          loggedErrorData := some (errorBody.getD "\x7b\x7d") }
    | .successBadBody =>
        { state := { s with loading := false },
          alerts := [saveConnectionAlert],
          networkCalled := true, loggedErrorData := none }
    | .success created =>
        { state := { s with
            title := "", description := "", latitude := none,
            longitude := none, photo := none,
            places := created :: s.places, loading := false },
          alerts := [saveSuccessAlert],
          networkCalled := true, loggedErrorData := none }

/-- A concrete record, for counterexamples and witnesses. -/
def examplePlace : Place :=
  { _id := "r1", title := "Pothole", description := "Large crack on 5th Ave",
    latitude := 40, longitude := -74, photo := none,
    createdAt := some "2024-01-01T00:00:00Z" }

/-! ## Helper lemmas -/

lemma missingRequired_eq_false {s : AppState}
    (ht : s.title ≠ "") (hd : s.description ≠ "")
    (hla : s.latitude ≠ none) (hlo : s.longitude ≠ none) :
    missingRequired s = false := by
  obtain ⟨a, ha⟩ := Option.ne_none_iff_exists'.mp hla
  obtain ⟨b, hb⟩ := Option.ne_none_iff_exists'.mp hlo
  simp [missingRequired, ha, hb, ht, hd]

/-! ## Claims -/

/-- C1: for every Draft in which title is empty, or description is empty,
or latitude is null, or longitude is null, `handleSave` shows the
validation alert and returns without issuing any network call, leaving
the whole screen state (Draft fields, list, busy flag) unchanged —
whatever the collaborator would have answered. -/
theorem handleSave_invalid_no_network (s : AppState) (post : PostOutcome)
    (h : s.title = "" ∨ s.description = "" ∨ s.latitude = none ∨ s.longitude = none) :
    handleSave s post =
      { state := s, alerts := [validationAlert],
        networkCalled := false, loggedErrorData := none } := by
  have hm : missingRequired s = true := by
    rcases h with h | h | h | h <;> simp [missingRequired, h]
  simp [handleSave, hm]

theorem handleSave_invalid_no_network_witness :
    handleSave ⟨"", "desc", some 1, some 2, none, [], false⟩ PostOutcome.netError =
      { state := ⟨"", "desc", some 1, some 2, none, [], false⟩,
        alerts := [validationAlert],
        networkCalled := false, loggedErrorData := none } :=
  handleSave_invalid_no_network _ _ (Or.inl rfl)

/-- C2: for every Draft passing validation, when the POST returns a
success status with a Record body, `handleSave` prepends exactly the
returned record to the head of the list (keeping the previous records in
order), resets the Draft fields to empty/null, and shows the success
alert. -/
theorem handleSave_success_prepends_resets (s : AppState) (created : Place)
    (ht : s.title ≠ "") (hd : s.description ≠ "")
    (hla : s.latitude ≠ none) (hlo : s.longitude ≠ none) :
    handleSave s (PostOutcome.success created) =
      { state := { title := "", description := "", latitude := none,
                   longitude := none, photo := none,
                   places := created :: s.places, loading := false },
        alerts := [saveSuccessAlert],
        networkCalled := true, loggedErrorData := none } := by
  simp [handleSave, missingRequired_eq_false ht hd hla hlo]

theorem handleSave_success_prepends_resets_witness :
    handleSave ⟨"Pothole", "Large crack on 5th Ave", some 40, some (-74), none, [], false⟩
        (PostOutcome.success examplePlace) =
      { state := { title := "", description := "", latitude := none,
                   longitude := none, photo := none,
                   places := [examplePlace], loading := false },
        alerts := [saveSuccessAlert],
        networkCalled := true, loggedErrorData := none } :=
  handleSave_success_prepends_resets _ _
    (by decide) (by decide) (by decide) (by decide)

/-- C3: for every Draft passing validation, when the POST returns a
non-success HTTP status, `handleSave` leaves every Draft field and the
list unchanged, and the busy flag is false once the operation completes. -/
theorem handleSave_rejected_frame (s : AppState) (errorBody : Option String)
    (ht : s.title ≠ "") (hd : s.description ≠ "")
    (hla : s.latitude ≠ none) (hlo : s.longitude ≠ none) :
    (handleSave s (PostOutcome.failure errorBody)).state.title = s.title ∧
    (handleSave s (PostOutcome.failure errorBody)).state.description = s.description ∧
    (handleSave s (PostOutcome.failure errorBody)).state.latitude = s.latitude ∧
    (handleSave s (PostOutcome.failure errorBody)).state.longitude = s.longitude ∧
    (handleSave s (PostOutcome.failure errorBody)).state.photo = s.photo ∧
    (handleSave s (PostOutcome.failure errorBody)).state.places = s.places ∧
    (handleSave s (PostOutcome.failure errorBody)).state.loading = false := by
  simp [handleSave, missingRequired_eq_false ht hd hla hlo]

theorem handleSave_rejected_frame_witness :
    (handleSave ⟨"t", "d", some 1, some 2, some "p", [examplePlace], false⟩
        (PostOutcome.failure none)).state.title = "t" ∧
    (handleSave ⟨"t", "d", some 1, some 2, some "p", [examplePlace], false⟩
        (PostOutcome.failure none)).state.description = "d" ∧
    (handleSave ⟨"t", "d", some 1, some 2, some "p", [examplePlace], false⟩
        (PostOutcome.failure none)).state.latitude = some 1 ∧
    (handleSave ⟨"t", "d", some 1, some 2, some "p", [examplePlace], false⟩
        (PostOutcome.failure none)).state.longitude = some 2 ∧
    (handleSave ⟨"t", "d", some 1, some 2, some "p", [examplePlace], false⟩
        (PostOutcome.failure none)).state.photo = some "p" ∧
    (handleSave ⟨"t", "d", some 1, some 2, some "p", [examplePlace], false⟩
        (PostOutcome.failure none)).state.places = [examplePlace] ∧
    (handleSave ⟨"t", "d", some 1, some 2, some "p", [examplePlace], false⟩
        (PostOutcome.failure none)).state.loading = false :=
  handleSave_rejected_frame _ _ (by decide) (by decide) (by decide) (by decide)

/-- C5: `handleSave` distinguishes the two network failure modes — a
completed POST with a non-success status shows exactly the generic
failure alert, a POST whose network call throws shows exactly the
distinct connection-failure alert, and these two alerts differ, so each
failure case shows exactly one of them and never both. -/
theorem handleSave_failure_modes (s : AppState) (errorBody : Option String)
    (ht : s.title ≠ "") (hd : s.description ≠ "")
    (hla : s.latitude ≠ none) (hlo : s.longitude ≠ none) :
    (handleSave s (PostOutcome.failure errorBody)).alerts = [saveRejectedAlert] ∧
    (handleSave s PostOutcome.netError).alerts = [saveConnectionAlert] ∧
    saveRejectedAlert ≠ saveConnectionAlert := by
  refine ⟨?_, ?_, by decide⟩ <;>
    simp [handleSave, missingRequired_eq_false ht hd hla hlo]

theorem handleSave_failure_modes_witness :
    (handleSave ⟨"t", "d", some 1, some 2, none, [], false⟩
        (PostOutcome.failure (some "oops"))).alerts = [saveRejectedAlert] ∧
    (handleSave ⟨"t", "d", some 1, some 2, none, [], false⟩
        PostOutcome.netError).alerts = [saveConnectionAlert] ∧
    saveRejectedAlert ≠ saveConnectionAlert :=
  handleSave_failure_modes _ _ (by decide) (by decide) (by decide) (by decide)

/-- C4 counterexample: on initial load (empty list), a non-success HTTP
response whose body parses as JSON does NOT surface an alert, and the
parsed body is stored as the list, which therefore is not left empty —
`fetchPlaces` never inspects `res.ok`. -/
theorem fetchPlaces_nonSuccess_counterexample :
    (fetchPlaces [] (FetchOutcome.response false (some [examplePlace]))).2 = [] ∧
    (fetchPlaces [] (FetchOutcome.response false (some [examplePlace]))).1 =
      [examplePlace] := by
  constructor <;> rfl

/-- C4 amended: on initial load, a `fetchPlaces` failure in which the
network call throws or the response body fails to parse as JSON surfaces
the fetch alert and leaves the list empty; a completed response, success
or not, whose body parses as JSON is stored as the list with no alert
(the HTTP status is never inspected). -/
theorem fetchPlaces_throw_alert_empty :
    fetchPlaces [] FetchOutcome.netError = ([], [fetchAlert]) ∧
    (∀ ok : Bool, fetchPlaces [] (FetchOutcome.response ok none) = ([], [fetchAlert])) ∧
    (∀ ok : Bool, ∀ data : List Place,
        fetchPlaces [] (FetchOutcome.response ok (some data)) = (data, [])) := by
  refine ⟨rfl, fun ok => ?_, fun ok data => ?_⟩ <;> cases ok <;> rfl

/-- C6: for every Draft, when the geolocation permission request returns
denied, `getLocation` shows the permission alert and leaves the whole
screen state unchanged — coordinates stay at their prior values and the
other Draft fields are untouched, whatever position fix the provider
would have delivered. -/
theorem getLocation_denied_frame (s : AppState) (coords : Int × Int) :
    getLocation s "denied" coords = (s, [locationPermAlert]) := by
  simp [getLocation]

/-- C7: for every prior value of the photo field, when the camera
permission is granted and the user cancels the capture, `takePhoto`
leaves the whole screen state unchanged — in particular the photo keeps
its prior value — and shows no alert. -/
theorem takePhoto_canceled_frame (s : AppState) (assets : Option (List Asset)) :
    takePhoto s "granted" ⟨true, assets⟩ = (s, []) := by
  simp [takePhoto]

/-- C8: validation checks coordinates only against null, not truthiness —
with non-empty title and description, a Draft with latitude 0 (and any
present longitude) or with longitude 0 (and any present latitude) passes
validation and `handleSave` proceeds to the network call. -/
theorem handleSave_zero_coordinate_passes (t d : String)
    (ht : t ≠ "") (hd : d ≠ "") (lat lng : Int) (ph : Option String)
    (ps : List Place) (ld : Bool) (post : PostOutcome) :
    (handleSave ⟨t, d, some 0, some lng, ph, ps, ld⟩ post).networkCalled = true ∧
    (handleSave ⟨t, d, some lat, some 0, ph, ps, ld⟩ post).networkCalled = true := by
  have h0 : missingRequired ⟨t, d, some 0, some lng, ph, ps, ld⟩ = false := by
    simp [missingRequired, ht, hd]
  have h1 : missingRequired ⟨t, d, some lat, some 0, ph, ps, ld⟩ = false := by
    simp [missingRequired, ht, hd]
  cases post <;> simp [handleSave, h0, h1]

theorem handleSave_zero_coordinate_passes_witness :
    (handleSave ⟨"t", "d", some 0, some 7, none, [], false⟩
        PostOutcome.netError).networkCalled = true ∧
    (handleSave ⟨"t", "d", some 7, some 0, none, [], false⟩
        PostOutcome.netError).networkCalled = true :=
  handleSave_zero_coordinate_passes "t" "d" (by decide) (by decide)
    7 7 none [] false PostOutcome.netError

/-- C9: on a non-success POST response, `handleSave` is insensitive to
the error response body — the resulting state and alert are the same for
every body outcome (the generic failure alert is always the one shown),
and when the body is absent or not valid JSON the value logged is the
empty object substituted by `.catch(() => (\x7b\x7d))`.  In the
embedding every body outcome yields a defined result: no exception
escapes this branch. -/
theorem handleSave_error_body_harmless (s : AppState)
    (ht : s.title ≠ "") (hd : s.description ≠ "")
    (hla : s.latitude ≠ none) (hlo : s.longitude ≠ none) :
    (∀ errorBody : Option String,
        (handleSave s (PostOutcome.failure errorBody)).alerts = [saveRejectedAlert] ∧
        (handleSave s (PostOutcome.failure errorBody)).state =
          (handleSave s (PostOutcome.failure none)).state) ∧
    (handleSave s (PostOutcome.failure none)).loggedErrorData = some "\x7b\x7d" := by
  have hm := missingRequired_eq_false ht hd hla hlo
  exact ⟨fun errorBody => by simp [handleSave, hm], by simp [handleSave, hm]⟩

theorem handleSave_error_body_harmless_witness :
    ((handleSave ⟨"t", "d", some 1, some 2, none, [], false⟩
        (PostOutcome.failure (some "bad"))).alerts = [saveRejectedAlert] ∧
      (handleSave ⟨"t", "d", some 1, some 2, none, [], false⟩
        (PostOutcome.failure (some "bad"))).state =
        (handleSave ⟨"t", "d", some 1, some 2, none, [], false⟩
          (PostOutcome.failure none)).state) ∧
    (handleSave ⟨"t", "d", some 1, some 2, none, [], false⟩
        (PostOutcome.failure none)).loggedErrorData = some "\x7b\x7d" :=
  ⟨(handleSave_error_body_harmless _ (by decide) (by decide) (by decide)
      (by decide)).1 (some "bad"),
   (handleSave_error_body_harmless _ (by decide) (by decide) (by decide)
      (by decide)).2⟩

/-- C10: when a capture completes uncancelled with at least one asset,
`takePhoto` prefers base64 data — an asset carrying base64 data (a
non-empty string, since the source tests truthiness) sets the photo to
"data:image/jpeg;base64," concatenated with that data; only when base64
is absent (or the empty string) is the photo set to the asset's URI; when
the asset has neither, the photo keeps its prior value. -/
theorem takePhoto_base64_preference (s : AppState) (asset : Asset)
    (rest : List Asset) :
    (∀ b, asset.base64 = some b → b ≠ "" →
        (takePhoto s "granted" ⟨false, some (asset :: rest)⟩).1.photo =
          some ("data:image/jpeg;base64," ++ b)) ∧
    (∀ u, (asset.base64 = none ∨ asset.base64 = some "") →
        asset.uri = some u → u ≠ "" →
        (takePhoto s "granted" ⟨false, some (asset :: rest)⟩).1.photo = some u) ∧
    ((asset.base64 = none ∨ asset.base64 = some "") →
        (asset.uri = none ∨ asset.uri = some "") →
        (takePhoto s "granted" ⟨false, some (asset :: rest)⟩).1.photo = s.photo) := by
  refine ⟨fun b hb hne => ?_, fun u hb hu hne => ?_, fun hb hu => ?_⟩
  · simp [takePhoto, hb, hne]
  · rcases hb with hb | hb <;> simp [takePhoto, photoFromUri, hb, hu, hne]
  · rcases hb with hb | hb <;> rcases hu with hu | hu <;>
      simp [takePhoto, photoFromUri, hb, hu]

theorem takePhoto_base64_preference_witness :
    (takePhoto ⟨"t", "d", none, none, some "old", [], false⟩ "granted"
        ⟨false, some [⟨some "QUJD", some "file:a.jpg"⟩]⟩).1.photo =
      some "data:image/jpeg;base64,QUJD" :=
  (takePhoto_base64_preference _ _ _).1 "QUJD" rfl (by decide)
